import Mathlib

/-
Verification development for the BulatorioOnline decision-and-evaluation core.

Shallow embedding of:
  * the judge aggregation pipelines
    (src/frameworks/mcp/judges/pipeline.py, src/frameworks/openai/judges/pipeline.py,
     shared weights in src/shared/schemas/judges.py), and
  * the router executor / response aggregator / planner-output parser
    (src/llm/router/router_agent.py, schemas in src/llm/router/schemas.py).

Modelling conventions:
  * Python float arithmetic on the judge weights is idealized as exact rational
    arithmetic over ℚ (the weights 0.40/0.30/0.20/0.10 are embedded as the exact
    rationals 40/100, 30/100, 20/100, 10/100).
  * Python `int(x)` truncates toward zero; every quotient it is applied to here is
    nonnegative, where truncation coincides with `Rat.floor`.
  * Python dict iteration order is insertion order; dicts built by the code are
    embedded as association lists in insertion order.
  * A judge coroutine that raised (and was mapped to None / excluded by the
    pipeline) is embedded as `none`.
-/

/-! ## Judge result schemas (src/shared/schemas/judges.py) -/

inductive SafetyStatus where
  | SAFE
  | WARNING
  | UNSAFE
deriving DecidableEq, Repr

inductive QualityStatus where
  | EXCELLENT
  | GOOD
  | ACCEPTABLE
  | POOR
deriving DecidableEq, Repr

inductive JudgmentDecision where
  | APPROVED
  | APPROVED_WITH_CAVEATS
  | NEEDS_REVISION
  | REJECTED
deriving DecidableEq, Repr

structure CriticalIssue where
  issue : String
  severity : String
  category : String
  location : Option String
deriving DecidableEq, Repr

/-- Result from the Safety judge (`SafetyResult` in judges.py). `safety_score`
is constrained to 0..100 by pydantic; we embed it as ℕ (the bound is irrelevant
to the aggregation claims). -/
structure SafetyResult where
  safety_score : Nat
  safety_status : SafetyStatus
  critical_issues : List CriticalIssue
  required_disclaimers : List String
  recommendations : Option String
  approved : Bool
deriving DecidableEq, Repr

structure QualityResult where
  quality_score : Nat
  quality_status : QualityStatus
  dimension_scores : List (String × Nat)
  missing_information : List String
  approved : Bool
  revision_needed : Bool
  suggestions : Option String
deriving DecidableEq, Repr

structure SourceResult where
  attribution_score : Nat
  total_claims : Nat
  attributed_claims : Nat
  unattributed_claims : Nat
  approved : Bool
deriving DecidableEq, Repr

structure FormatResult where
  format_score : Nat
  format_status : String
  dimension_scores : List (String × Nat)
  approved : Bool
deriving DecidableEq, Repr

/-- Aggregated judgment (`AggregatedJudgment` in judges.py).  The `Any`-typed
list fields that every pipeline fills with `[]` are embedded as string lists. -/
structure AggregatedJudgment where
  final_decision : JudgmentDecision
  overall_score : Int
  score_breakdown : List (String × Nat)
  blocking_issues : List String
  required_actions : List String
  disclaimers_to_add : List String
  revision_suggestions : List String
  final_response : Option String
  confidence : ℚ
deriving DecidableEq, Repr

/-- `JUDGE_WEIGHTS` from src/shared/schemas/judges.py, as exact rationals. -/
def JUDGE_WEIGHTS : List (String × ℚ) :=
  [("safety", 40/100), ("quality", 30/100), ("attribution", 20/100), ("format", 10/100)]

/-- Python `JUDGE_WEIGHTS.get(key, 0.1)`. -/
def weightsGetD (key : String) : ℚ :=
  match JUDGE_WEIGHTS.lookup key with
  | some w => w
  | none => 10/100

/-! ## MCP pipeline aggregation (src/frameworks/mcp/judges/pipeline.py, evaluate) -/

/-- The `scores` dict built by `MCPJudgePipeline.evaluate`, in insertion order. -/
def mcpScores (safety : Option SafetyResult) (quality : Option QualityResult)
    (source : Option SourceResult) (format_r : Option FormatResult) :
    List (String × Nat) :=
  (match safety with | some s => [("safety", s.safety_score)] | none => [])
    ++ (match quality with | some q => [("quality", q.quality_score)] | none => [])
    ++ (match source with | some a => [("attribution", a.attribution_score)] | none => [])
    ++ (match format_r with | some f => [("format", f.format_score)] | none => [])

/-- The loop `for key, score in scores.items(): overall += score * weight;
total_weight += weight`, returning `(overall, total_weight)`. -/
def weightedTotals (scores : List (String × Nat)) : ℚ × ℚ :=
  scores.foldl
    (fun acc kv => (acc.1 + (kv.2 : ℚ) * weightsGetD kv.1, acc.2 + weightsGetD kv.1))
    (0, 0)

/-- `overall_score = int(overall / total_weight) if total_weight > 0 else 70`.
`int` truncates toward zero; the quotient is nonnegative here, so this is the floor. -/
def overallScoreOf (scores : List (String × Nat)) : Int :=
  let t := weightedTotals scores
  if 0 < t.2 then ⌊t.1 / t.2⌋ else 70

/-- `MCPJudgePipeline.evaluate` after the judge calls have settled: a judge whose
coroutine raised is `none` (the code maps exceptions to None and skips them). -/
def mcpEvaluate (safety : Option SafetyResult) (quality : Option QualityResult)
    (source : Option SourceResult) (format_r : Option FormatResult) :
    AggregatedJudgment :=
  let scores := mcpScores safety quality source format_r
  let overall_score := overallScoreOf scores
  let decision :=
    if (match safety with | some s => !s.approved | none => false) then
      JudgmentDecision.REJECTED
    else if overall_score ≥ 80 then JudgmentDecision.APPROVED
    else if overall_score ≥ 60 then JudgmentDecision.APPROVED_WITH_CAVEATS
    else JudgmentDecision.NEEDS_REVISION
  -- `if safety and safety.required_disclaimers: disclaimers.extend(...)`:
  -- the truthiness test on the list is mirrored literally.
  let disclaimers :=
    match safety with
    | some s => if s.required_disclaimers.isEmpty then [] else [] ++ s.required_disclaimers
    | none => []
  { final_decision := decision
    overall_score := overall_score
    score_breakdown := scores
    blocking_issues := []
    required_actions := []
    disclaimers_to_add := disclaimers
    revision_suggestions := []
    final_response := none
    confidence := (overall_score : ℚ) / 100 }

/-! ## OpenAI pipeline aggregation (src/frameworks/openai/judges/pipeline.py, evaluate)

The OpenAI (and LangChain) pipelines work on raw dicts; we embed each judge dict
narrowed to exactly the keys the aggregation reads, every key optional since the
code reads them with `.get(key, default)`.  A judge entry that is not a dict at
all (the `isinstance(x, dict)` test fails) is `none`. -/

/-- The keys `evaluate` reads from the safety judge dict. -/
structure OASafetyDict where
  safety_score : Option Nat
  approved : Option Bool
  required_disclaimers : Option (List String)
deriving DecidableEq, Repr

/-- A score-only judge dict: the single `<dimension>_score` key `evaluate` reads. -/
structure OAScoreDict where
  score_value : Option Nat
deriving DecidableEq, Repr

/-- `OpenAIJudgePipeline.evaluate` after the judge calls settled (the LangChain
pipeline's aggregation part is textually identical). -/
def openaiEvaluate (safety : Option OASafetyDict) (quality : Option OAScoreDict)
    (source : Option OAScoreDict) (format_r : Option OAScoreDict) :
    AggregatedJudgment :=
  let scores :=
    (match safety with | some d => [("safety", d.safety_score.getD 70)] | none => [])
      ++ (match quality with | some d => [("quality", d.score_value.getD 70)] | none => [])
      ++ (match source with | some d => [("attribution", d.score_value.getD 70)] | none => [])
      ++ (match format_r with | some d => [("format", d.score_value.getD 70)] | none => [])
  let disclaimers :=
    match safety with
    | some d => [] ++ d.required_disclaimers.getD []
    | none => []
  let overall_score := overallScoreOf scores
  let safety_approved := match safety with | some d => d.approved.getD true | none => true
  let decision :=
    if !safety_approved then JudgmentDecision.REJECTED
    else if overall_score ≥ 80 then JudgmentDecision.APPROVED
    else if overall_score ≥ 60 then JudgmentDecision.APPROVED_WITH_CAVEATS
    else JudgmentDecision.NEEDS_REVISION
  { final_decision := decision
    overall_score := overall_score
    score_breakdown := scores
    blocking_issues := []
    required_actions := []
    disclaimers_to_add := disclaimers
    revision_suggestions := []
    final_response := none
    confidence := (overall_score : ℚ) / 100 }

/-! ## JSON-serializable Python values

`JVal` embeds the JSON-serializable Python values that flow through the router:
tool inputs, tool results, and decoded planner output (the image of `json.loads`).
-/

inductive JVal where
  | jnull
  | jbool (b : Bool)
  | jnum (n : Int)
  | jstr (s : String)
  | jarr (xs : List JVal)
  | jobj (fields : List (String × JVal))

mutual

/-- Python `repr` of a JSON-serializable value (string escaping elided). -/
def pyRepr : JVal → String
  | .jnull => "None"
  | .jbool true => "True"
  | .jbool false => "False"
  | .jnum n => toString n
  | .jstr s => "\x27" ++ s ++ "\x27"
  | .jarr xs => "[" ++ pyReprItems xs ++ "]"
  | .jobj fs => "\x7b" ++ pyReprFields fs ++ "\x7d"

def pyReprItems : List JVal → String
  | [] => ""
  | [x] => pyRepr x
  | x :: y :: rest => pyRepr x ++ ", " ++ pyReprItems (y :: rest)

def pyReprFields : List (String × JVal) → String
  | [] => ""
  | [(k, v)] => "\x27" ++ k ++ "\x27: " ++ pyRepr v
  | (k, v) :: y :: rest => "\x27" ++ k ++ "\x27: " ++ pyRepr v ++ ", " ++ pyReprFields (y :: rest)

end

/-- Python `str` of a JSON-serializable value (as used by f-string interpolation):
bare text for strings, `repr`-like rendering otherwise. -/
def pyStr : JVal → String
  | .jstr s => s
  | v => pyRepr v

mutual

/-- `json.dumps` of a JSON-serializable value (string escaping elided). -/
def pyDumps : JVal → String
  | .jnull => "null"
  | .jbool true => "true"
  | .jbool false => "false"
  | .jnum n => toString n
  | .jstr s => "\"" ++ s ++ "\""
  | .jarr xs => "[" ++ pyDumpsItems xs ++ "]"
  | .jobj fs => "\x7b" ++ pyDumpsFields fs ++ "\x7d"

def pyDumpsItems : List JVal → String
  | [] => ""
  | [x] => pyDumps x
  | x :: y :: rest => pyDumps x ++ ", " ++ pyDumpsItems (y :: rest)

def pyDumpsFields : List (String × JVal) → String
  | [] => ""
  | [(k, v)] => "\"" ++ k ++ "\": " ++ pyDumps v
  | (k, v) :: y :: rest => "\"" ++ k ++ "\": " ++ pyDumps v ++ ", " ++ pyDumpsFields (y :: rest)

end

/-! ## Router schemas (src/llm/router/schemas.py) -/

inductive Confidence where
  | high
  | medium
  | low
deriving DecidableEq, Repr

inductive CostTier where
  | low
  | medium
  | high
deriving DecidableEq, Repr

inductive Latency where
  | fast
  | moderate
  | slow
deriving DecidableEq, Repr

/-- `SelectedTool`: `tool_id`, `reason`, `order` and the `inputs` dict. -/
structure SelectedTool where
  tool_id : String
  reason : String
  order : Int
  inputs : List (String × JVal)

/-- `RoutingDecision`: all fields are required in the pydantic model. -/
structure RoutingDecision where
  reasoning : String
  selected_tools : List SelectedTool
  execution_plan : List String
  trade_offs : String
  confidence : Confidence
  fallback_plan : String
  estimated_cost : CostTier
  estimated_time : Latency

/-- `ToolExecutionResult`.  The wall-clock `execution_time_ms` field is not
modelled (real time is outside the embedding). -/
structure ToolExecutionResult where
  tool_id : String
  success : Bool
  result : Option JVal
  error : Option String

/-- `ExecutionResult` (again without the wall-clock `total_time_ms`). -/
structure ExecutionResult where
  decision : RoutingDecision
  tool_results : List ToolExecutionResult
  final_response : Option String
  success : Bool

/-! ## Executor (src/llm/router/router_agent.py, RouterAgent.execute_plan)

A tool executor maps the `inputs` dict to either a JSON-serializable value or
the message of a raised exception (`str(e)`).  Synchronous and asynchronous
executors are awaited alike, so both are embedded as one total function.  The
executor map `tool_executors.get(tool_id)` is a partial map from tool ids. -/

def ToolExecutor : Type := List (String × JVal) → Except String JVal

/-- One iteration of the `for selected_tool in sorted_tools` loop body: missing
executor, successful call, or caught exception. -/
def runStep (tool_executors : String → Option ToolExecutor) (st : SelectedTool) :
    ToolExecutionResult :=
  match tool_executors st.tool_id with
  | none =>
    { tool_id := st.tool_id, success := false, result := none,
      error := some ("No executor registered for tool: " ++ st.tool_id) }
  | some ex =>
    match ex st.inputs with
    | .ok v => { tool_id := st.tool_id, success := true, result := some v, error := none }
    | .error e =>
      { tool_id := st.tool_id, success := false, result := none, error := some e }

/-- `sorted(decision.selected_tools, key=lambda t: t.order)`.  Python `sorted` is
a stable sort; it is embedded as insertion sort with `≤` on the key, which is
stable (permutation, sortedness and tie preservation are proved below). -/
def sortedToolsOf (decision : RoutingDecision) : List SelectedTool :=
  List.insertionSort (fun a b => a.order ≤ b.order) decision.selected_tools

/-- The loop state `(tool_results, all_success)` threaded through the body. -/
def execStepFold (tool_executors : String → Option ToolExecutor)
    (acc : List ToolExecutionResult × Bool) (st : SelectedTool) :
    List ToolExecutionResult × Bool :=
  let r := runStep tool_executors st
  (acc.1 ++ [r], acc.2 && r.success)

/-- `results_text` entry for one tool result. -/
def resultLine (r : ToolExecutionResult) : String :=
  if r.success then
    "Tool \x27" ++ r.tool_id ++ "\x27: " ++ pyDumps (r.result.getD JVal.jnull)
  else
    "Tool \x27" ++ r.tool_id ++ "\x27 FAILED: " ++ (r.error.getD "None")

/-- The synthesis prompt built by `RouterAgent._aggregate_results`. -/
def buildAggregationPrompt (decision : RoutingDecision)
    (tool_results : List ToolExecutionResult) : String :=
  "Based on the following tool execution results, provide a clear, \nhelpful response to the user\x27s original request.\n\nOriginal request context:\n"
    ++ decision.reasoning
    ++ "\n\nExecution plan:\n"
    ++ String.intercalate "\n" decision.execution_plan
    ++ "\n\nTool results:\n"
    ++ String.intercalate "\n" (tool_results.map resultLine)
    ++ "\n\nProvide a clear, concise response that:\n1. Summarizes what was accomplished\n2. Presents the key findings or results\n3. Notes any issues or limitations encountered\n4. Suggests next steps if applicable\n\nResponse:"

/-- The deterministic fallback `_aggregate_results` builds when the completion
call raises: `"\n\n".join(f"**{r.tool_id}**: {r.result if r.success else r.error}")`. -/
def aggregationFallback (tool_results : List ToolExecutionResult) : String :=
  String.intercalate "\n\n" (tool_results.map fun r =>
    "**" ++ r.tool_id ++ "**: "
      ++ (if r.success then pyStr (r.result.getD JVal.jnull) else r.error.getD "None"))

/-- `RouterAgent._aggregate_results`: one completion call (`generate`, returning
`none` when the call raises) and, on failure, the internal fallback. -/
def aggregateResults (generate : String → Option String) (decision : RoutingDecision)
    (tool_results : List ToolExecutionResult) : String :=
  match generate (buildAggregationPrompt decision tool_results) with
  | some t => t
  | none => aggregationFallback tool_results

/-- `RouterAgent.execute_plan`. -/
def executePlan (generate : String → Option String) (decision : RoutingDecision)
    (tool_executors : String → Option ToolExecutor) (aggregate_results : Bool) :
    ExecutionResult :=
  let sorted_tools := sortedToolsOf decision
  let state := sorted_tools.foldl (execStepFold tool_executors) ([], true)
  let tool_results := state.1
  let all_success := state.2
  let final_response :=
    if aggregate_results && !tool_results.isEmpty then
      some (aggregateResults generate decision tool_results)
    else none
  { decision := decision, tool_results := tool_results,
    final_response := final_response, success := all_success }

instance : DecidableRel (fun a b : SelectedTool => a.order ≤ b.order) :=
  fun a b => Int.decLe a.order b.order

instance : IsTotal SelectedTool (fun a b => a.order ≤ b.order) :=
  ⟨fun a b => le_total a.order b.order⟩

instance : IsTrans SelectedTool (fun a b => a.order ≤ b.order) :=
  ⟨fun _ _ _ h1 h2 => le_trans h1 h2⟩

/-! ## Witness fixtures -/

/-- A completion function whose call always raises. -/
def noSynthesis : String → Option String := fun _ => none

/-- An empty executor map. -/
def noExecutors : String → Option ToolExecutor := fun _ => none

def stMissing : SelectedTool := { tool_id := "missing", reason := "lookup", order := 1, inputs := [] }

def stThrower : SelectedTool := { tool_id := "thrower", reason := "compute", order := 2, inputs := [] }

/-- An executor map where `thrower` raises and everything else is unregistered. -/
def demoExecutors : String → Option ToolExecutor :=
  fun tid => if tid = "thrower" then some (fun _ => Except.error "boom") else none

/-- A plan listing `thrower` (order 2) before `missing` (order 1). -/
def demoDecision : RoutingDecision :=
  { reasoning := "find and compute", selected_tools := [stThrower, stMissing],
    execution_plan := ["step"], trade_offs := "none noted", confidence := .high,
    fallback_plan := "retry", estimated_cost := .low, estimated_time := .fast }

def singleToolDecision : RoutingDecision :=
  { reasoning := "ctx", selected_tools := [{ tool_id := "t1", reason := "r", order := 1, inputs := [] }],
    execution_plan := ["plan"], trade_offs := "t", confidence := .high,
    fallback_plan := "f", estimated_cost := .low, estimated_time := .fast }

def emptyDecision : RoutingDecision :=
  { reasoning := "ctx", selected_tools := [], execution_plan := [], trade_offs := "t",
    confidence := .high, fallback_plan := "f", estimated_cost := .low, estimated_time := .fast }

/-! ## Planner output parsing (src/llm/router/router_agent.py, _parse_response)

Python string machinery embedded on `List Char`:
  * `pySplit t sep` is `t.split(sep)` (all occurrences, left to right,
    non-overlapping, empty segments kept);
  * the fencing test `"```json" in text` is the substring relation, i.e.
    `List.IsInfix` on the character lists.
`json.loads` is the Python standard library, not code of this repository, so it
enters the embedding as a parameter `jsonLoads : String → Option JVal`
(`none` = `json.JSONDecodeError` raised).  Pydantic construction of
`RoutingDecision`/`SelectedTool` (all fields required except `inputs`) is
embedded as explicit field extraction; error payload texts are elided. -/

/-- Left-to-right scanner behind `pySplit`: `skip` counts separator characters
still to consume after a match; `acc` holds the current segment reversed. -/
def splitGo (sep : List Char) : List Char → Nat → List Char → List (List Char)
  | [], _, acc => [acc.reverse]
  | _ :: cs, Nat.succ k, acc => splitGo sep cs k acc
  | c :: cs, 0, acc =>
    if sep.isPrefixOf (c :: cs) && !sep.isEmpty then
      acc.reverse :: splitGo sep cs (sep.length - 1) []
    else
      splitGo sep cs 0 (c :: acc)

/-- Python `text.split(sep)` for a non-empty separator. -/
def pySplit (text sep : List Char) : List (List Char) :=
  splitGo sep text 0 []

/-- Python `list[i]` as used on split results (the code only indexes positions
guaranteed to exist). -/
def pyGetD (ls : List (List Char)) (i : Nat) : List Char :=
  ls.getD i []

def fenceJson : List Char := "```json".data

def fence : List Char := "```".data

/-- The fence-stripping prelude of `_parse_response`:
`text.split("```json")[1].split("```")[0]` when tagged, else the same with
`"```"`, else the text unchanged. -/
def stripFences (text : String) : String :=
  let d := text.data
  if fenceJson <:+: d then
    String.mk (pyGetD (pySplit (pyGetD (pySplit d fenceJson) 1) fence) 0)
  else if fence <:+: d then
    String.mk (pyGetD (pySplit (pyGetD (pySplit d fence) 1) fence) 0)
  else text

/-- `Confidence(value)`: raises on any string outside the enum. -/
def confidenceOfString : String → Option Confidence
  | "high" => some .high
  | "medium" => some .medium
  | "low" => some .low
  | _ => none

/-- `CostTier(value)`. -/
def costTierOfString : String → Option CostTier
  | "low" => some .low
  | "medium" => some .medium
  | "high" => some .high
  | _ => none

/-- `Latency(value)`. -/
def latencyOfString : String → Option Latency
  | "fast" => some .fast
  | "moderate" => some .moderate
  | "slow" => some .slow
  | _ => none

/-- A JSON list all of whose items are strings (`list[str]` validation). -/
def stringItems : List JVal → Option (List String)
  | [] => some []
  | .jstr s :: rest => (stringItems rest).map (fun t => s :: t)
  | _ => none

/-- `SelectedTool(**tool)`: `tool_id`, `reason`, `order` required, `inputs`
defaulting to the empty dict; a non-dict element or a wrongly-typed field is a
validation error. -/
def parseSelectedTool : JVal → Except String SelectedTool
  | .jobj fs =>
    match fs.lookup "tool_id", fs.lookup "reason", fs.lookup "order" with
    | some (.jstr tid), some (.jstr rsn), some (.jnum ord) =>
      match fs.lookup "inputs" with
      | none => .ok { tool_id := tid, reason := rsn, order := ord, inputs := [] }
      | some (.jobj ins) => .ok { tool_id := tid, reason := rsn, order := ord, inputs := ins }
      | some _ => .error "Failed to create RoutingDecision"
    | _, _, _ => .error "Failed to create RoutingDecision"
  | _ => .error "Failed to create RoutingDecision"

def parseSelectedTools : List JVal → Except String (List SelectedTool)
  | [] => .ok []
  | v :: rest =>
    match parseSelectedTool v with
    | .error e => .error e
    | .ok st =>
      match parseSelectedTools rest with
      | .error e => .error e
      | .ok sts => .ok (st :: sts)

/-- `RoutingDecision(**data)` preceded by the code's own conversions: the
`selected_tools` key is read with `data.get("selected_tools", [])` — a missing
key silently becomes the empty list — while every other field is required by the
pydantic model and its absence (or a wrongly-typed value) raises.  The dict case
is split out as `parseRoutingFields`; non-dict data raises. -/
def parseRoutingFields (fs : List (String × JVal)) : Except String RoutingDecision :=
    match
      (match fs.lookup "selected_tools" with
       | some (.jarr xs) => some xs
       | none => some []
       | some _ => none) with
    | none => .error "Failed to create RoutingDecision"
    | some xs =>
      match parseSelectedTools xs with
      | .error e => .error e
      | .ok tools =>
        match fs.lookup "reasoning", fs.lookup "execution_plan", fs.lookup "trade_offs" with
        | some (.jstr rsn), some (.jarr planItems), some (.jstr tr) =>
          match stringItems planItems with
          | none => .error "Failed to create RoutingDecision"
          | some plan =>
            match fs.lookup "confidence", fs.lookup "fallback_plan",
                fs.lookup "estimated_cost", fs.lookup "estimated_time" with
            | some (.jstr conf), some (.jstr fb), some (.jstr cost), some (.jstr tm) =>
              match confidenceOfString conf, costTierOfString cost, latencyOfString tm with
              | some c, some co, some ti =>
                .ok { reasoning := rsn, selected_tools := tools, execution_plan := plan,
                      trade_offs := tr, confidence := c, fallback_plan := fb,
                      estimated_cost := co, estimated_time := ti }
              | _, _, _ => .error "Failed to create RoutingDecision"
            | _, _, _, _ => .error "Failed to create RoutingDecision"
        | _, _, _ => .error "Failed to create RoutingDecision"

def parseRoutingDecision (data : JVal) : Except String RoutingDecision :=
  match data with
  | .jobj fs => parseRoutingFields fs
  | _ => .error "Failed to create RoutingDecision"

/-- `RouterAgent._parse_response`: strip fencing, `json.loads(text.strip())`
(decode failure raises `ValueError("Failed to parse JSON response: ...")`), then
schema conversion/validation (failure raises
`ValueError("Failed to create RoutingDecision: ...")`). -/
def parseResponse (jsonLoads : String → Option JVal) (response_text : String) :
    Except String RoutingDecision :=
  match jsonLoads (stripFences response_text).trim with
  | none => .error "Failed to parse JSON response"
  | some data => parseRoutingDecision data

/-- A decoded planner payload with every required field except `selected_tools`. -/
def c8IncompleteFields : List (String × JVal) :=
  [("reasoning", .jstr "r"), ("execution_plan", .jarr []), ("trade_offs", .jstr "t"),
   ("confidence", .jstr "high"), ("fallback_plan", .jstr "f"),
   ("estimated_cost", .jstr "low"), ("estimated_time", .jstr "fast")]

/-- A decoded planner payload with every required field. -/
def c8CompleteFields : List (String × JVal) :=
  ("selected_tools",
    .jarr [.jobj [("tool_id", .jstr "t1"), ("reason", .jstr "why"), ("order", .jnum 1)]])
    :: c8IncompleteFields

/-! ## Theorems -/

theorem weightsGetD_safety : weightsGetD "safety" = 40/100 := rfl

theorem weightsGetD_quality : weightsGetD "quality" = 30/100 := rfl

theorem weightsGetD_attribution : weightsGetD "attribution" = 20/100 := rfl

theorem weightsGetD_format : weightsGetD "format" = 10/100 := rfl

/-! ## Claims about the judge aggregation -/

/-- Claim C1: for every non-empty subset of judges that returned a score, the
aggregator computes `overall_score = floor(sum(score_i * weight_i) / sum(weight_i
for present judges))` with canonical weights safety=0.40, quality=0.30,
attribution=0.20, format=0.10, excluding absent judges from numerator and
denominator without renormalizing; with all four present at 100/80/60/50 the
overall score is 81, and with only quality=90 and format=100 present it is 92. -/
theorem mcp_overall_score_weighted_floor :
    (∀ (s : Option SafetyResult) (q : Option QualityResult)
        (a : Option SourceResult) (f : Option FormatResult),
      mcpScores s q a f ≠ [] →
      (mcpEvaluate s q a f).overall_score =
        ⌊((s.elim 0 fun r => (r.safety_score : ℚ) * (40/100))
            + (q.elim 0 fun r => (r.quality_score : ℚ) * (30/100))
            + (a.elim 0 fun r => (r.attribution_score : ℚ) * (20/100))
            + (f.elim 0 fun r => (r.format_score : ℚ) * (10/100)))
          / ((s.elim 0 fun _ => (40/100 : ℚ)) + (q.elim 0 fun _ => (30/100 : ℚ))
            + (a.elim 0 fun _ => (20/100 : ℚ)) + (f.elim 0 fun _ => (10/100 : ℚ)))⌋)
    ∧ (mcpEvaluate (some ⟨100, .SAFE, [], [], none, true⟩)
        (some ⟨80, .GOOD, [], [], true, false, none⟩)
        (some ⟨60, 0, 0, 0, true⟩) (some ⟨50, "GOOD", [], true⟩)).overall_score = 81
    ∧ (mcpEvaluate none (some ⟨90, .GOOD, [], [], true, false, none⟩)
        none (some ⟨100, "GOOD", [], true⟩)).overall_score = 92 := by
  refine ⟨?_, ?_, ?_⟩
  · intro s q a f hne
    rcases s with _ | rs <;> rcases q with _ | rq <;> rcases a with _ | ra <;>
        rcases f with _ | rf <;>
      first
        | exact absurd rfl hne
        | (simp only [mcpEvaluate, mcpScores, overallScoreOf, weightedTotals, List.foldl,
             List.nil_append, List.cons_append, Option.elim, weightsGetD_safety,
             weightsGetD_quality, weightsGetD_attribution, weightsGetD_format]
           norm_num)
  · norm_num [mcpEvaluate, mcpScores, overallScoreOf, weightedTotals,
      weightsGetD_safety, weightsGetD_quality, weightsGetD_attribution, weightsGetD_format]
  · norm_num [mcpEvaluate, mcpScores, overallScoreOf, weightedTotals,
      weightsGetD_safety, weightsGetD_quality, weightsGetD_attribution, weightsGetD_format]

/-- Witness for `mcp_overall_score_weighted_floor`: the general formula applied at
the four-judge example input. -/
theorem mcp_overall_score_weighted_floor_witness :
    mcpScores (some ⟨100, .SAFE, [], [], none, true⟩)
        (some ⟨80, .GOOD, [], [], true, false, none⟩)
        (some ⟨60, 0, 0, 0, true⟩) (some ⟨50, "GOOD", [], true⟩) ≠ [] ∧
    (mcpEvaluate (some ⟨100, .SAFE, [], [], none, true⟩)
        (some ⟨80, .GOOD, [], [], true, false, none⟩)
        (some ⟨60, 0, 0, 0, true⟩) (some ⟨50, "GOOD", [], true⟩)).overall_score =
      ⌊(((100 : ℚ) * (40/100) + (80 : ℚ) * (30/100) + (60 : ℚ) * (20/100)
          + (50 : ℚ) * (10/100))
        / ((40/100 : ℚ) + (30/100 : ℚ) + (20/100 : ℚ) + (10/100 : ℚ)))⌋ := by
  refine ⟨by decide, ?_⟩
  have h := mcp_overall_score_weighted_floor.1
    (some ⟨100, .SAFE, [], [], none, true⟩)
    (some ⟨80, .GOOD, [], [], true, false, none⟩)
    (some ⟨60, 0, 0, 0, true⟩) (some ⟨50, "GOOD", [], true⟩) (by decide)
  simpa using h

/-- Claim C2: the final decision is computed with this exact precedence: Safety
present with `approved = false` forces REJECTED regardless of the overall score;
otherwise `overall_score >= 80` gives APPROVED, `60 <= overall_score < 80` gives
APPROVED_WITH_CAVEATS, and `overall_score < 60` gives NEEDS_REVISION; boundary
scores 80/79/60/59 map to APPROVED / APPROVED_WITH_CAVEATS /
APPROVED_WITH_CAVEATS / NEEDS_REVISION.  Stated for the MCP pipeline and for the
OpenAI pipeline (whose veto flag defaults to approved when the key is absent). -/
theorem judge_final_decision_precedence :
    (∀ (s : Option SafetyResult) (q : Option QualityResult)
        (a : Option SourceResult) (f : Option FormatResult),
      (mcpEvaluate s q a f).final_decision =
        (if (s.elim false fun r => !r.approved) = true then JudgmentDecision.REJECTED
         else if (mcpEvaluate s q a f).overall_score ≥ 80 then JudgmentDecision.APPROVED
         else if (mcpEvaluate s q a f).overall_score ≥ 60 then
           JudgmentDecision.APPROVED_WITH_CAVEATS
         else JudgmentDecision.NEEDS_REVISION))
    ∧ (∀ (s : Option OASafetyDict) (q a f : Option OAScoreDict),
      (openaiEvaluate s q a f).final_decision =
        (if (s.elim true fun d => d.approved.getD true) = false then
           JudgmentDecision.REJECTED
         else if (openaiEvaluate s q a f).overall_score ≥ 80 then JudgmentDecision.APPROVED
         else if (openaiEvaluate s q a f).overall_score ≥ 60 then
           JudgmentDecision.APPROVED_WITH_CAVEATS
         else JudgmentDecision.NEEDS_REVISION))
    ∧ (mcpEvaluate (some ⟨80, .SAFE, [], [], none, true⟩) none none none).final_decision
        = JudgmentDecision.APPROVED
    ∧ (mcpEvaluate (some ⟨79, .SAFE, [], [], none, true⟩) none none none).final_decision
        = JudgmentDecision.APPROVED_WITH_CAVEATS
    ∧ (mcpEvaluate (some ⟨60, .SAFE, [], [], none, true⟩) none none none).final_decision
        = JudgmentDecision.APPROVED_WITH_CAVEATS
    ∧ (mcpEvaluate (some ⟨59, .SAFE, [], [], none, true⟩) none none none).final_decision
        = JudgmentDecision.NEEDS_REVISION
    ∧ (mcpEvaluate (some ⟨100, .UNSAFE, [], [], none, false⟩)
        (some ⟨100, .EXCELLENT, [], [], true, false, none⟩)
        (some ⟨100, 0, 0, 0, true⟩)
        (some ⟨100, "GOOD", [], true⟩)).final_decision = JudgmentDecision.REJECTED := by
  refine ⟨?_, ?_, ?_, ?_, ?_, ?_, ?_⟩
  · intro s q a f
    rcases s with _ | rs
    · simp [mcpEvaluate]
    · cases hb : rs.approved <;> simp [mcpEvaluate, hb]
  · intro s q a f
    rcases s with _ | ds
    · simp [openaiEvaluate]
    · rcases hb : ds.approved with _ | b
      · simp [openaiEvaluate, hb]
      · cases b <;> simp [openaiEvaluate, hb]
  · norm_num [mcpEvaluate, mcpScores, overallScoreOf, weightedTotals,
      weightsGetD_safety, weightsGetD_quality, weightsGetD_attribution, weightsGetD_format]
  · norm_num [mcpEvaluate, mcpScores, overallScoreOf, weightedTotals,
      weightsGetD_safety, weightsGetD_quality, weightsGetD_attribution, weightsGetD_format]
  · norm_num [mcpEvaluate, mcpScores, overallScoreOf, weightedTotals,
      weightsGetD_safety, weightsGetD_quality, weightsGetD_attribution, weightsGetD_format]
  · norm_num [mcpEvaluate, mcpScores, overallScoreOf, weightedTotals,
      weightsGetD_safety, weightsGetD_quality, weightsGetD_attribution, weightsGetD_format]
  · simp [mcpEvaluate]

/-- Claim C3 (counterexample): with every judge call failed (all judges absent,
empty aggregation input), the MCP pipeline does not resolve to NEEDS_REVISION:
it resolves to APPROVED_WITH_CAVEATS. -/
theorem degraded_aggregation_not_needs_revision :
    (mcpEvaluate none none none none).final_decision
        = JudgmentDecision.APPROVED_WITH_CAVEATS
    ∧ ¬ (mcpEvaluate none none none none).final_decision
        = JudgmentDecision.NEEDS_REVISION := by
  decide

/-- Claim C3 (amended): when every judge call fails, `overall_score` falls back to
the constant 70, so the evaluation resolves to APPROVED_WITH_CAVEATS with
confidence 0.7 — not NEEDS_REVISION, and not a reduced confidence — though it
indeed never resolves to APPROVED.  The OpenAI pipeline degrades identically. -/
theorem degraded_aggregation_defaults_to_caveats :
    (mcpEvaluate none none none none).final_decision
        = JudgmentDecision.APPROVED_WITH_CAVEATS
    ∧ (mcpEvaluate none none none none).overall_score = 70
    ∧ (mcpEvaluate none none none none).confidence = 70/100
    ∧ (mcpEvaluate none none none none).final_decision ≠ JudgmentDecision.APPROVED
    ∧ (openaiEvaluate none none none none).final_decision
        = JudgmentDecision.APPROVED_WITH_CAVEATS
    ∧ (openaiEvaluate none none none none).overall_score = 70 := by
  refine ⟨by decide, by decide, ?_, by decide, by decide, by decide⟩
  norm_num [mcpEvaluate, mcpScores, overallScoreOf, weightedTotals]

/-- Claim C9 (counterexample): `disclaimers_to_add` is not deduplicated — when the
Safety judge returns the same disclaimer twice, it appears twice in the
aggregated output. -/
theorem disclaimers_not_deduplicated :
    (mcpEvaluate (some ⟨90, .SAFE, [], ["Consulte um medico", "Consulte um medico"],
        none, true⟩) none none none).disclaimers_to_add
      = ["Consulte um medico", "Consulte um medico"]
    ∧ ¬ (mcpEvaluate (some ⟨90, .SAFE, [], ["Consulte um medico", "Consulte um medico"],
        none, true⟩) none none none).disclaimers_to_add.Nodup := by
  decide

/-- Claim C9 (amended): `disclaimers_to_add` is exactly the Safety judge's
`required_disclaimers` list, in order, duplicates preserved (no deduplication);
it is empty when Safety is absent, and no other judge contributes to it. -/
theorem disclaimers_copied_from_safety_only :
    (∀ (s : Option SafetyResult) (q : Option QualityResult)
        (a : Option SourceResult) (f : Option FormatResult),
      (mcpEvaluate s q a f).disclaimers_to_add =
        (match s with | some r => r.required_disclaimers | none => []))
    ∧ (∀ (s : Option OASafetyDict) (q a f : Option OAScoreDict),
      (openaiEvaluate s q a f).disclaimers_to_add =
        (match s with | some d => d.required_disclaimers.getD [] | none => [])) := by
  constructor
  · intro s q a f
    rcases s with _ | rs <;> [skip; rcases rs with ⟨sc, st, ci, rd, re, ap⟩] <;>
      [skip; cases rd] <;> simp [mcpEvaluate]
  · intro s q a f
    rcases s with _ | ds <;> simp [openaiEvaluate]

/-! ## Structural lemmas about the executor -/

theorem runStep_tool_id (tool_executors : String → Option ToolExecutor)
    (st : SelectedTool) : (runStep tool_executors st).tool_id = st.tool_id := by
  unfold runStep
  rcases h1 : tool_executors st.tool_id with _ | ex
  · rfl
  · rcases h2 : ex st.inputs with e | v <;> simp [h2]

theorem execFold_characterization (tool_executors : String → Option ToolExecutor) :
    ∀ (l : List SelectedTool) (acc : List ToolExecutionResult × Bool),
      l.foldl (execStepFold tool_executors) acc =
        (acc.1 ++ l.map (runStep tool_executors),
         acc.2 && (l.map (runStep tool_executors)).all (fun r => r.success)) := by
  intro l
  induction l with
  | nil => intro acc; simp
  | cons st rest ih =>
    intro acc
    simp only [List.foldl_cons, ih, execStepFold, List.map_cons, List.all_cons]
    simp [Bool.and_assoc]

theorem executePlan_tool_results (generate : String → Option String)
    (decision : RoutingDecision) (tool_executors : String → Option ToolExecutor)
    (aggregate_results : Bool) :
    (executePlan generate decision tool_executors aggregate_results).tool_results =
      (sortedToolsOf decision).map (runStep tool_executors) := by
  simp [executePlan, execFold_characterization]

theorem executePlan_success (generate : String → Option String)
    (decision : RoutingDecision) (tool_executors : String → Option ToolExecutor)
    (aggregate_results : Bool) :
    (executePlan generate decision tool_executors aggregate_results).success =
      ((sortedToolsOf decision).map (runStep tool_executors)).all (fun r => r.success) := by
  simp [executePlan, execFold_characterization]

theorem filter_orderedInsert (k : Int) (x : SelectedTool) (l : List SelectedTool) :
    (l.orderedInsert (fun a b => a.order ≤ b.order) x).filter (fun t => t.order == k)
      = if x.order == k then x :: l.filter (fun t => t.order == k)
        else l.filter (fun t => t.order == k) := by
  induction l with
  | nil =>
    cases hx : x.order == k <;> simp [List.orderedInsert, List.filter, hx]
  | cons y ys ih =>
    simp only [List.orderedInsert]
    by_cases hle : x.order ≤ y.order
    · rw [if_pos hle]
      cases hx : x.order == k <;> simp [List.filter_cons, hx]
    · rw [if_neg hle]
      have hlt : y.order < x.order := not_le.mp hle
      cases hx : x.order == k <;> cases hy : y.order == k <;>
        simp only [List.filter_cons, hx, hy, ih, if_true, if_false, Bool.false_eq_true,
          Bool.true_eq_false, ite_true, ite_false]
      · exfalso
        rw [beq_iff_eq] at hx hy
        omega

theorem filter_insertionSort (k : Int) (l : List SelectedTool) :
    (l.insertionSort (fun a b => a.order ≤ b.order)).filter (fun t => t.order == k)
      = l.filter (fun t => t.order == k) := by
  induction l with
  | nil => rfl
  | cons x xs ih =>
    simp only [List.insertionSort, filter_orderedInsert, ih, List.filter_cons]

/-! ## Claims about the executor -/

/-- Claim C7: tools are invoked, and tool_results emitted, in the order of a
stable ascending sort of `selected_tools` by `order`: the sorted list is a
permutation of `selected_tools`, is sorted by `order`, and ties keep the
original relative order (the elements with any fixed `order` value appear
exactly as in `selected_tools`). -/
theorem tool_results_follow_stable_sort (generate : String → Option String)
    (decision : RoutingDecision) (tool_executors : String → Option ToolExecutor)
    (aggregate_results : Bool) :
    (executePlan generate decision tool_executors aggregate_results).tool_results.map
        (fun r => r.tool_id)
      = (sortedToolsOf decision).map (fun t => t.tool_id)
    ∧ (sortedToolsOf decision).Perm decision.selected_tools
    ∧ (sortedToolsOf decision).Sorted (fun a b => a.order ≤ b.order)
    ∧ ∀ k : Int, (sortedToolsOf decision).filter (fun t => t.order == k)
        = decision.selected_tools.filter (fun t => t.order == k) := by
  refine ⟨?_, ?_, ?_, ?_⟩
  · rw [executePlan_tool_results]
    simp [List.map_map, Function.comp, runStep_tool_id]
  · exact List.perm_insertionSort _ _
  · exact List.sorted_insertionSort _ _
  · intro k
    exact filter_insertionSort k decision.selected_tools

/-- Claim C6: `ExecutionResult.success` is the conjunction of the per-tool
successes: it equals `all r.success`, is true for an empty plan, and is false as
soon as any single tool result is failed. -/
theorem execution_success_is_conjunction (generate : String → Option String)
    (decision : RoutingDecision) (tool_executors : String → Option ToolExecutor)
    (aggregate_results : Bool) :
    ((executePlan generate decision tool_executors aggregate_results).success
      = (executePlan generate decision tool_executors aggregate_results).tool_results.all
          (fun r => r.success))
    ∧ (decision.selected_tools = [] →
        (executePlan generate decision tool_executors aggregate_results).success = true)
    ∧ (∀ r ∈ (executePlan generate decision tool_executors aggregate_results).tool_results,
        r.success = false →
        (executePlan generate decision tool_executors aggregate_results).success = false) := by
  refine ⟨?_, ?_, ?_⟩
  · rw [executePlan_success, executePlan_tool_results]
  · intro h
    rw [executePlan_success]
    simp [sortedToolsOf, h, List.insertionSort]
  · intro r hr hfail
    rw [executePlan_tool_results] at hr
    rw [executePlan_success]
    exact List.all_eq_false.mpr ⟨r, hr, by simp [hfail]⟩

/-- Witness for `execution_success_is_conjunction`: an empty plan yields
`success = true`; a plan whose first sorted step has no registered executor
yields a failed result and `success = false`. -/
theorem execution_success_is_conjunction_witness :
    (emptyDecision.selected_tools = []
      ∧ (executePlan noSynthesis emptyDecision noExecutors false).success = true)
    ∧ ((runStep noExecutors stMissing).success = false
      ∧ runStep noExecutors stMissing
          ∈ (executePlan noSynthesis demoDecision noExecutors false).tool_results
      ∧ (executePlan noSynthesis demoDecision noExecutors false).success = false) := by
  refine ⟨⟨rfl, ?_⟩, ⟨rfl, ?_, ?_⟩⟩
  · exact (execution_success_is_conjunction noSynthesis emptyDecision noExecutors false).2.1 rfl
  · rw [executePlan_tool_results]
    exact List.Mem.head _
  · exact (execution_success_is_conjunction noSynthesis demoDecision noExecutors false).2.2
      (runStep noExecutors stMissing)
      (by rw [executePlan_tool_results]; exact List.Mem.head _) rfl

/-- Claim C10: exactly one `ToolExecutionResult` per selected tool —
`tool_results` has the same length as `selected_tools`, and the i-th result's
`tool_id` is the `tool_id` of the i-th element of the stable-sorted
`selected_tools`, uniformly over missing executors, failing executors and
successful executors. -/
theorem one_result_per_selected_tool (generate : String → Option String)
    (decision : RoutingDecision) (tool_executors : String → Option ToolExecutor)
    (aggregate_results : Bool) :
    (executePlan generate decision tool_executors aggregate_results).tool_results.length
      = decision.selected_tools.length
    ∧ ∀ i : Nat,
      ((executePlan generate decision tool_executors aggregate_results).tool_results[i]?.map
          (fun r => r.tool_id))
        = ((sortedToolsOf decision)[i]?.map (fun st => st.tool_id)) := by
  constructor
  · rw [executePlan_tool_results]
    simp [sortedToolsOf, List.length_insertionSort]
  · intro i
    rw [executePlan_tool_results]
    rw [List.getElem?_map]
    cases (sortedToolsOf decision)[i]? with
    | none => rfl
    | some st => simp [runStep_tool_id]

/-- Claim C5: per-step failures are isolated: every step of the sorted plan gets
its own result (`tool_results` is the pointwise image of `runStep`, so no step
aborts the rest and no exception escapes `execute_plan`); a `tool_id` absent
from the executor map yields a failed result with the non-empty
"No executor registered" error; an executor that raises yields a failed result
carrying the exception's message. -/
theorem executor_step_failures_isolated (generate : String → Option String)
    (decision : RoutingDecision) (tool_executors : String → Option ToolExecutor)
    (aggregate_results : Bool) :
    (executePlan generate decision tool_executors aggregate_results).tool_results
      = (sortedToolsOf decision).map (runStep tool_executors)
    ∧ (∀ st : SelectedTool, tool_executors st.tool_id = none →
        runStep tool_executors st =
          { tool_id := st.tool_id, success := false, result := none,
            error := some ("No executor registered for tool: " ++ st.tool_id) }
        ∧ ("No executor registered for tool: " ++ st.tool_id) ≠ "")
    ∧ (∀ (st : SelectedTool) (ex : ToolExecutor) (e : String),
        tool_executors st.tool_id = some ex → ex st.inputs = Except.error e →
        runStep tool_executors st =
          { tool_id := st.tool_id, success := false, result := none, error := some e }) := by
  refine ⟨executePlan_tool_results _ _ _ _, ?_, ?_⟩
  · intro st hmiss
    refine ⟨by simp [runStep, hmiss], ?_⟩
    intro hcontra
    have hdata : ("No executor registered for tool: " ++ st.tool_id).data = "".data :=
      congrArg String.data hcontra
    rw [String.data_append] at hdata
    have hnil := (List.append_eq_nil.mp hdata).1
    exact absurd hnil (by decide)
  · intro st ex e hex herr
    simp [runStep, hex, herr]

/-- Witness for `executor_step_failures_isolated`: in `demoDecision`, `missing`
has no executor and `thrower` raises "boom"; both get failed results and both
appear in `tool_results`. -/
theorem executor_step_failures_isolated_witness :
    demoExecutors "missing" = none
    ∧ runStep demoExecutors stMissing =
        { tool_id := "missing", success := false, result := none,
          error := some ("No executor registered for tool: " ++ "missing") }
    ∧ ("No executor registered for tool: " ++ "missing") ≠ ""
    ∧ runStep demoExecutors stThrower =
        { tool_id := "thrower", success := false, result := none, error := some "boom" }
    ∧ (executePlan noSynthesis demoDecision demoExecutors false).tool_results
        = [runStep demoExecutors stMissing, runStep demoExecutors stThrower] := by
  have h := executor_step_failures_isolated noSynthesis demoDecision demoExecutors false
  refine ⟨rfl, (h.2.1 stMissing rfl).1, (h.2.1 stMissing rfl).2, ?_, ?_⟩
  · exact h.2.2 stThrower (fun _ => Except.error "boom") "boom" rfl rfl
  · rw [h.1]
    rfl

theorem executePlan_final_response (generate : String → Option String)
    (decision : RoutingDecision) (tool_executors : String → Option ToolExecutor)
    (aggregate_results : Bool) :
    (executePlan generate decision tool_executors aggregate_results).final_response =
      if aggregate_results && !((sortedToolsOf decision).map (runStep tool_executors)).isEmpty
      then some (aggregateResults generate decision
        ((sortedToolsOf decision).map (runStep tool_executors)))
      else none := by
  simp only [executePlan]
  rw [execFold_characterization]
  simp

/-- Claim C4 (counterexample): when the synthesis completion call raises,
`final_response` does not stay null — `execute_plan` stores the deterministic
fallback that `_aggregate_results` itself builds. -/
theorem final_response_not_null_on_synthesis_failure :
    (executePlan noSynthesis singleToolDecision noExecutors true).final_response
      = some "**t1**: No executor registered for tool: t1"
    ∧ (executePlan noSynthesis singleToolDecision noExecutors true).final_response
      ≠ none := by
  have h1 : (executePlan noSynthesis singleToolDecision noExecutors true).final_response
      = some "**t1**: No executor registered for tool: t1" := rfl
  refine ⟨h1, ?_⟩
  rw [h1]
  simp

/-- Claim C4 (amended): if the synthesis completion call fails,
`_aggregate_results` itself returns the deterministic fallback — the blank-line
join of each tool's labeled raw result or error — so `final_response` is that
string rather than null; the fallback construction is a total function of the
tool results (it never raises). -/
theorem synthesis_failure_internal_fallback (generate : String → Option String)
    (decision : RoutingDecision) (tool_executors : String → Option ToolExecutor)
    (hfail : generate (buildAggregationPrompt decision
      ((sortedToolsOf decision).map (runStep tool_executors))) = none)
    (hne : decision.selected_tools ≠ []) :
    (executePlan generate decision tool_executors true).final_response
      = some (aggregationFallback ((sortedToolsOf decision).map (runStep tool_executors)))
    ∧ (executePlan generate decision tool_executors true).final_response ≠ none := by
  have hlen : ((sortedToolsOf decision).map (runStep tool_executors)).length
      = decision.selected_tools.length := by
    simp [sortedToolsOf, List.length_insertionSort]
  have hnotempty : ((sortedToolsOf decision).map (runStep tool_executors)).isEmpty = false := by
    rcases hE : ((sortedToolsOf decision).map (runStep tool_executors)).isEmpty with _ | _
    · rfl
    · exfalso
      apply hne
      have h0 := List.isEmpty_iff.mp hE
      have := congrArg List.length h0
      rw [hlen] at this
      exact List.length_eq_zero.mp this
  have hmain : (executePlan generate decision tool_executors true).final_response
      = some (aggregationFallback ((sortedToolsOf decision).map (runStep tool_executors))) := by
    rw [executePlan_final_response, hnotempty]
    simp [aggregateResults, hfail]
  refine ⟨hmain, ?_⟩
  rw [hmain]
  simp

/-- Witness for `synthesis_failure_internal_fallback` at a one-tool plan with a
failing synthesis call. -/
theorem synthesis_failure_internal_fallback_witness :
    noSynthesis (buildAggregationPrompt singleToolDecision
        ((sortedToolsOf singleToolDecision).map (runStep noExecutors))) = none
    ∧ singleToolDecision.selected_tools ≠ []
    ∧ (executePlan noSynthesis singleToolDecision noExecutors true).final_response
        = some (aggregationFallback
            ((sortedToolsOf singleToolDecision).map (runStep noExecutors))) := by
  refine ⟨rfl, List.cons_ne_nil _ _, ?_⟩
  exact (synthesis_failure_internal_fallback noSynthesis singleToolDecision noExecutors
    rfl (List.cons_ne_nil _ _)).1

theorem splitGo_skip_append (sep : List Char) (d : List Char) :
    ∀ (r acc : List Char), splitGo sep (d ++ r) d.length acc = splitGo sep r 0 acc := by
  induction d with
  | nil => intro r acc; rfl
  | cons c d ih => intro r acc; exact ih r acc

theorem splitGo_match_head (sep : List Char) (hne : sep ≠ []) (r acc : List Char) :
    splitGo sep (sep ++ r) 0 acc = acc.reverse :: splitGo sep r 0 [] := by
  obtain ⟨c, ctail, rfl⟩ := List.exists_cons_of_ne_nil hne
  have hpre : (c :: ctail).isPrefixOf (c :: (ctail ++ r)) = true := by
    rw [← List.cons_append]
    exact List.isPrefixOf_iff_prefix.mpr (List.prefix_append _ _)
  rw [List.cons_append]
  simp only [splitGo, hpre, List.isEmpty_cons, Bool.not_false, Bool.and_true, Bool.true_and,
    if_true, List.length_cons, Nat.succ_sub_one]
  rw [splitGo_skip_append]

theorem splitGo_no_occurrence (sep : List Char) :
    ∀ (t acc : List Char), ¬ sep <:+: t → splitGo sep t 0 acc = [acc.reverse ++ t] := by
  intro t
  induction t with
  | nil => intro acc h; simp [splitGo]
  | cons x xs ih =>
    intro acc h
    have hp : sep.isPrefixOf (x :: xs) = false := by
      cases hb : sep.isPrefixOf (x :: xs)
      · rfl
      · exact absurd (List.isPrefixOf_iff_prefix.mp hb).isInfix h
    simp only [splitGo, hp, Bool.false_and, if_false]
    rw [ih (x :: acc) (fun hinf => h (List.infix_cons hinf))]
    simp

theorem splitGo_scan_clean (sep : List Char) (hd : Char) (hsep : sep.head? = some hd) :
    ∀ (s r acc : List Char), hd ∉ s →
      splitGo sep (s ++ r) 0 acc = splitGo sep r 0 (s.reverse ++ acc) := by
  intro s
  induction s with
  | nil => intro r acc _; simp
  | cons x xs ih =>
    intro r acc hmem
    have hx : hd ≠ x := fun he => hmem (he ▸ List.mem_cons_self x xs)
    obtain ⟨stail, hsepEq⟩ : ∃ stail, sep = hd :: stail := by
      cases sep with
      | nil => simp at hsep
      | cons a as =>
        simp only [List.head?_cons, Option.some.injEq] at hsep
        exact ⟨as, by rw [hsep]⟩
    have hp : sep.isPrefixOf (x :: (xs ++ r)) = false := by
      rw [hsepEq]
      show ((hd == x) && stail.isPrefixOf (xs ++ r)) = false
      rw [beq_eq_false_iff_ne.mpr hx, Bool.false_and]
    rw [List.cons_append]
    simp only [splitGo, hp, Bool.false_and, Bool.false_eq_true, if_false]
    rw [ih r (x :: acc) (fun hm => hmem (List.mem_cons_of_mem x hm))]
    have hacc : xs.reverse ++ (x :: acc) = (x :: xs).reverse ++ acc := by
      simp [List.reverse_cons, List.append_assoc]
    rw [hacc]

theorem not_infix_of_head_not_mem (sep t : List Char) (hd : Char)
    (hsep : sep.head? = some hd) (hmem : hd ∉ t) : ¬ sep <:+: t := by
  intro hinf
  apply hmem
  apply hinf.subset
  cases sep with
  | nil => simp at hsep
  | cons a as =>
    simp only [List.head?_cons, Option.some.injEq] at hsep
    rw [← hsep]
    exact List.mem_cons_self a as

theorem not_infix_append_short (sep s tail : List Char) (hd : Char)
    (hsep : sep.head? = some hd) (hmem : hd ∉ s) (hlen : tail.length < sep.length) :
    ¬ sep <:+: (s ++ tail) := by
  rintro ⟨u, v, huv⟩
  by_cases hu : u.length < s.length
  · have hsepne : 0 < sep.length := by
      cases sep
      · simp at hsep
      · simp
    have h2 : (u ++ sep ++ v)[u.length]? = some hd := by
      rw [List.append_assoc, List.getElem?_append_right (le_refl u.length)]
      rw [Nat.sub_self, List.getElem?_append]
      rw [if_pos hsepne, ← List.head?_eq_getElem?, hsep]
    have h1 : s[u.length]? = some hd := by
      have h3 := huv ▸ h2
      rw [List.getElem?_append, if_pos hu] at h3
      exact h3
    obtain ⟨hlt, hEq⟩ := List.getElem?_eq_some.mp h1
    exact hmem (hEq ▸ List.getElem_mem hlt)
  · have hlens := congrArg List.length huv
    simp only [List.length_append] at hlens
    omega

theorem pySplit_tagged_fence (s : List Char) (hmem : '`' ∉ s) :
    pySplit (fenceJson ++ (s ++ fence)) fenceJson = [[], s ++ fence] := by
  unfold pySplit
  rw [splitGo_match_head fenceJson (by decide)]
  rw [splitGo_no_occurrence fenceJson (s ++ fence) []
    (not_infix_append_short fenceJson s fence '`' rfl hmem (by decide))]
  rfl

theorem pySplit_payload_fence (s : List Char) (hmem : '`' ∉ s) :
    pySplit (s ++ fence) fence = [s, []] := by
  unfold pySplit
  rw [splitGo_scan_clean fence '`' rfl s fence [] hmem]
  nth_rewrite 2 [show (fence : List Char) = fence ++ [] by simp]
  rw [splitGo_match_head fence (by decide)]
  simp [splitGo]

theorem pySplit_untagged_fence (s : List Char) (hmem : '`' ∉ s) :
    pySplit (fence ++ (s ++ fence)) fence = [[], s, []] := by
  unfold pySplit
  rw [splitGo_match_head fence (by decide)]
  have h2 := pySplit_payload_fence s hmem
  unfold pySplit at h2
  rw [h2]
  rfl

theorem pySplit_clean (s : List Char) (hmem : '`' ∉ s) :
    pySplit s fence = [s] := by
  unfold pySplit
  rw [splitGo_no_occurrence fence s [] (not_infix_of_head_not_mem fence s '`' rfl hmem)]
  rfl

theorem stripFences_tagged (s : List Char) (hmem : '`' ∉ s) :
    stripFences (String.mk (fenceJson ++ s ++ fence)) = String.mk s := by
  have hin : fenceJson <:+: (fenceJson ++ s ++ fence) :=
    ⟨[], s ++ fence, by simp⟩
  unfold stripFences
  rw [if_pos hin]
  rw [show (fenceJson ++ s ++ fence : List Char) = fenceJson ++ (s ++ fence) by simp]
  rw [pySplit_tagged_fence s hmem]
  show String.mk (pyGetD (pySplit (s ++ fence) fence) 0) = String.mk s
  rw [pySplit_payload_fence s hmem]
  rfl

theorem stripFences_untagged (s : List Char) (hmem : '`' ∉ s)
    (hnj : ¬ fenceJson <:+: (fence ++ s ++ fence)) :
    stripFences (String.mk (fence ++ s ++ fence)) = String.mk s := by
  have hin : fence <:+: (fence ++ s ++ fence) :=
    ⟨[], s ++ fence, by simp⟩
  unfold stripFences
  rw [if_neg hnj, if_pos hin]
  rw [show (fence ++ s ++ fence : List Char) = fence ++ (s ++ fence) by simp]
  rw [pySplit_untagged_fence s hmem]
  show String.mk (pyGetD (pySplit s fence) 0) = String.mk s
  rw [pySplit_clean s hmem]
  rfl

theorem stripFences_clean (s : List Char) (hmem : '`' ∉ s) :
    stripFences (String.mk s) = String.mk s := by
  unfold stripFences
  rw [if_neg (not_infix_of_head_not_mem fenceJson s '`' rfl hmem)]
  rw [if_neg (not_infix_of_head_not_mem fence s '`' rfl hmem)]

/-- Claim C8 (counterexample): a completion output that is schema-incomplete for
RoutingDecision — it lacks the required `selected_tools` field — does not raise:
the parser silently fills `selected_tools = []` and returns a decision. -/
theorem parse_fills_default_for_missing_selected_tools :
    c8IncompleteFields.lookup "selected_tools" = none
    ∧ parseResponse (fun _ => some (.jobj c8IncompleteFields)) "\x7b\x7d"
        = .ok { reasoning := "r", selected_tools := [], execution_plan := [],
                trade_offs := "t", confidence := .high, fallback_plan := "f",
                estimated_cost := .low, estimated_time := .fast }
    ∧ ∀ e, parseResponse (fun _ => some (.jobj c8IncompleteFields)) "\x7b\x7d"
        ≠ .error e := by
  have h2 : parseResponse (fun _ => some (.jobj c8IncompleteFields)) "\x7b\x7d"
      = .ok { reasoning := "r", selected_tools := [], execution_plan := [],
              trade_offs := "t", confidence := .high, fallback_plan := "f",
              estimated_cost := .low, estimated_time := .fast } := rfl
  refine ⟨rfl, h2, ?_⟩
  intro e h
  rw [h2] at h
  exact Except.noConfusion h

/-- Claim C8 (amended): parsing strips one optional layer of triple-backtick
fencing — json-tagged, untagged, or absent — before JSON decoding (fenced and
unfenced payloads parse identically); output that is not valid JSON raises a
parse error (a ValueError — the repository defines no PlanParseError class), and
a JSON object missing any required RoutingDecision field other than
`selected_tools` never yields a decision; a missing `selected_tools` key,
however, is silently defaulted to the empty tool list. -/
theorem planner_parse_strips_fences_and_rejects_invalid :
    (∀ (jl : String → Option JVal) (s : List Char), '`' ∉ s →
      parseResponse jl (String.mk (fenceJson ++ s ++ fence))
        = parseResponse jl (String.mk s))
    ∧ (∀ (jl : String → Option JVal) (s : List Char), '`' ∉ s →
        ¬ fenceJson <:+: (fence ++ s ++ fence) →
      parseResponse jl (String.mk (fence ++ s ++ fence))
        = parseResponse jl (String.mk s))
    ∧ (∀ (jl : String → Option JVal) (text : String),
        jl ((stripFences text).trim) = none →
      parseResponse jl text = .error "Failed to parse JSON response")
    ∧ (∀ (fs : List (String × JVal)) (d : RoutingDecision),
        parseRoutingDecision (.jobj fs) = .ok d →
        (fs.lookup "reasoning").isSome ∧ (fs.lookup "execution_plan").isSome
          ∧ (fs.lookup "trade_offs").isSome ∧ (fs.lookup "confidence").isSome
          ∧ (fs.lookup "fallback_plan").isSome ∧ (fs.lookup "estimated_cost").isSome
          ∧ (fs.lookup "estimated_time").isSome)
    ∧ (∀ (fs : List (String × JVal)) (d : RoutingDecision),
        fs.lookup "selected_tools" = none → parseRoutingDecision (.jobj fs) = .ok d →
        d.selected_tools = [])
    ∧ (∀ xs : List JVal,
        parseRoutingDecision (.jarr xs) = .error "Failed to create RoutingDecision")
    ∧ parseRoutingDecision .jnull = .error "Failed to create RoutingDecision" := by
  refine ⟨?_, ?_, ?_, ?_, ?_, ?_, ?_⟩
  · intro jl s hmem
    unfold parseResponse
    rw [stripFences_tagged s hmem, stripFences_clean s hmem]
  · intro jl s hmem hnj
    unfold parseResponse
    rw [stripFences_untagged s hmem hnj, stripFences_clean s hmem]
  · intro jl text h
    simp [parseResponse, h]
  · intro fs d h
    have h2 : parseRoutingFields fs = .ok d := h
    unfold parseRoutingFields at h2
    repeat' split at h2
    all_goals simp_all
  · intro fs d hnone h
    have h2 : parseRoutingFields fs = .ok d := h
    unfold parseRoutingFields at h2
    rw [hnone] at h2
    simp only [parseSelectedTools] at h2
    repeat' split at h2
    all_goals simp_all
    all_goals rw [← h2]
  · intro xs
    rfl
  · rfl

/-- Witness for `planner_parse_strips_fences_and_rejects_invalid` at concrete
inputs: a json-tagged fenced payload, an untagged fenced payload, a decoder that
fails, and a complete decoded object. -/
theorem planner_parse_strips_fences_and_rejects_invalid_witness :
    ('`' ∉ "42".data
      ∧ parseResponse (fun _ => none) (String.mk (fenceJson ++ "42".data ++ fence))
          = parseResponse (fun _ => none) (String.mk "42".data))
    ∧ (¬ fenceJson <:+: (fence ++ "42".data ++ fence)
      ∧ parseResponse (fun _ => none) (String.mk (fence ++ "42".data ++ fence))
          = parseResponse (fun _ => none) (String.mk "42".data))
    ∧ ((fun _ => (none : Option JVal)) ((stripFences "not json").trim) = none
      ∧ parseResponse (fun _ => none) "not json" = .error "Failed to parse JSON response")
    ∧ (parseRoutingDecision (.jobj c8CompleteFields)
        = .ok { reasoning := "r",
                selected_tools := [{ tool_id := "t1", reason := "why", order := 1, inputs := [] }],
                execution_plan := [], trade_offs := "t", confidence := .high,
                fallback_plan := "f", estimated_cost := .low, estimated_time := .fast }
      ∧ (c8CompleteFields.lookup "reasoning").isSome
      ∧ (c8CompleteFields.lookup "estimated_time").isSome) := by
  refine ⟨⟨by decide, ?_⟩, ⟨by decide, ?_⟩, ⟨rfl, ?_⟩, ⟨rfl, ?_, ?_⟩⟩
  · exact planner_parse_strips_fences_and_rejects_invalid.1 (fun _ => none) "42".data
      (by decide)
  · exact planner_parse_strips_fences_and_rejects_invalid.2.1 (fun _ => none) "42".data
      (by decide) (by decide)
  · exact planner_parse_strips_fences_and_rejects_invalid.2.2.1 (fun _ => none)
      "not json" rfl
  · exact (planner_parse_strips_fences_and_rejects_invalid.2.2.2.1 c8CompleteFields _
      rfl).1
  · exact (planner_parse_strips_fences_and_rejects_invalid.2.2.2.1 c8CompleteFields _
      rfl).2.2.2.2.2.2
